import Mathlib

/-!
Verification of the corruption-classification and quarantine engine of
gallery_organizer_by_date, a shallow embedding of `damage_detector.py` and
`02-damage_detector.py`.

Conventions of the embedding:
* File contents are byte lists (`List Nat`); an `Except Unit` wrapper models
  an I/O failure while opening or reading a file.
* Library behavior (Pillow, OpenCV, ffmpeg) is passed in as explicit
  environment values: an inductive describing which exception, if any, the
  library raised, or the data it produced.  Python `try`/`except` blocks
  become case analysis on those environment values.
* Python floats (`fps`, durations) are modelled as rationals; the two float
  comparisons in the source (`frames_read < max_frames_to_check * 0.5` with
  `max_frames_to_check ≤ 10`, and the bytes-per-second threshold) are exact
  at the scales involved, so the rational model agrees with the float one on
  the inputs used here.
* Classification statuses are the literal strings the source uses.
-/

namespace DamageDetect

/-- Python `str.lower()`, modelled as character-wise lowercasing. -/
def strLower (s : String) : String :=
  String.mk (s.data.map Char.toLower)

/-- Python `pat in s` for strings: substring containment. -/
def strContains (s pat : String) : Bool :=
  decide (pat.data <:+: s.data)

/-- Python `pat in tail` for byte strings: contiguous subsequence containment. -/
def bytesContains (tail pat : List Nat) : Bool :=
  decide (pat <:+: tail)

/-- The bounded tail window the trailer check reads: the source seeks to
`max(0, file_size - search_window)` and reads to the end, i.e. it obtains the
last `min(file_size, search_window)` bytes. -/
def tailWindow (bytes : List Nat) (window : Nat) : List Nat :=
  bytes.drop (bytes.length - window)

/-- The `FileInfo` dataclass (damage_detector.py lines 130-143; identical in
02-damage_detector.py lines 49-62).  `check_time` is a float in the source,
modelled as a rational. -/
structure FileInfo where
  path : String
  name : String
  size : Nat
  extension : String
  mime_type : String
  is_image : Bool
  is_video : Bool
  corruption_status : String := "unknown"
  corruption_details : String := ""
  check_time : Rat := 0
  error_message : String := ""
deriving DecidableEq

/-- Behavior of the Pillow open/verify/full-decode sequence on one file:
either it raised `UnidentifiedImageError`, an `OSError` with a message, some
other exception with a message, or the full decode succeeded and `img.size`
reported the given width and height. -/
inductive PILResult where
  | unidentified
  | osError (msg : String)
  | otherError (msg : String)
  | ok (width height : Int)
deriving DecidableEq

/-- `DamageDetector._check_image_trailer` (damage_detector.py lines 251-303;
identical in 02-damage_detector.py lines 188-233).  The `file` argument is the
file's byte content, `.error ()` meaning the open/seek/read raised, which the
source's `except` clause converts to the generic failure reason. -/
def check_image_trailer (file : Except Unit (List Nat)) (extension : String) :
    Bool × String :=
  let ext := strLower extension
  if ext = ".jpg" ∨ ext = ".jpeg" then
    match file with
    | .error _ => (false, "بررسی پایان فایل با خطا مواجه شد")
    | .ok bytes =>
      if bytes.length < 2 then (false, "تصویر ناقص/بریده (اندازه بسیار کم)")
      else if bytesContains (tailWindow bytes (64 * 1024)) [0xFF, 0xD9] then (true, "")
      else (false, "پایان فایل JPEG (FFD9) یافت نشد")
  else if ext = ".png" then
    match file with
    | .error _ => (false, "بررسی پایان فایل با خطا مواجه شد")
    | .ok bytes =>
      if bytes.length < 12 then (false, "تصویر ناقص/بریده (اندازه بسیار کم)")
      else if bytesContains (tailWindow bytes (64 * 1024)) [0x49, 0x45, 0x4E, 0x44] then (true, "")
      else (false, "پایان فایل PNG (IEND) ناقص/مفقود")
  else if ext = ".gif" then
    match file with
    | .error _ => (false, "بررسی پایان فایل با خطا مواجه شد")
    | .ok bytes =>
      if bytes.length < 1 then (false, "تصویر ناقص/بریده (اندازه بسیار کم)")
      else if bytesContains (tailWindow bytes (16 * 1024)) [0x3B] then (true, "")
      else (false, "پایان فایل GIF (';') یافت نشد")
  else (true, "")

/-- `DamageDetector.check_image_corruption` (damage_detector.py lines 206-249).
02-damage_detector.py lines 144-186 is behaviorally identical (it merely drops
one redundant substring test on the OSError message, subsumed by the
`"truncat"` test kept here).  The timing side effect on `check_time` is not
part of the returned classification. -/
def check_image_corruption (pil_available : Bool) (decode : PILResult)
    (file : Except Unit (List Nat)) (extension : String) : String × String :=
  if !pil_available then ("skipped", "کتابخانه Pillow نصب نیست")
  else
    match decode with
    | .unidentified => ("corrupt", "فرمت تصویر شناسایی نشد")
    | .osError e =>
      let msg := strLower e
      if strContains msg "truncated" || strContains msg "truncat" ||
          strContains msg "image file is truncated" then
        ("corrupt", "تصویر ناقص/بریده (truncated)")
      else if strContains msg "broken data stream" ||
          strContains msg "cannot identify image file" then
        ("corrupt", "داده تصویری ناقص یا خراب")
      else ("corrupt", "خطا در بررسی تصویر: " ++ e)
    | .otherError e => ("corrupt", "خطا در بررسی تصویر: " ++ e)
    | .ok width height =>
      if width ≤ 0 ∨ height ≤ 0 then ("corrupt", "ابعاد تصویر نامعتبر")
      else
        let trailer := check_image_trailer file extension
        if !trailer.1 then ("corrupt", trailer.2)
        else ("healthy", "تصویر سالم است")

/-- Behavior of `cv2.VideoCapture` on one file.  `exc` models an exception
raised anywhere inside the `try` block (caught by the routine's catch-all);
`decodable` is the number of frames that decode successfully by sequential
`cap.read()` calls before the first failure. -/
structure VideoEnv where
  exc : Option String := none
  opened : Bool := true
  frame_count : Int := 0
  fps : Rat := 0
  width : Int := 0
  height : Int := 0
  decodable : Nat := 0
deriving DecidableEq

/-- `DamageDetector.check_video_corruption` (damage_detector.py lines 305-361).
The source's `frames_read < max_frames_to_check * 0.5` float comparison is
exact for `max_frames_to_check ≤ 10` and is rendered as
`2 * frames_read < max_frames_to_check`. -/
def check_video_corruption (cv2_available : Bool) (env : VideoEnv) (size : Nat) :
    String × String :=
  if !cv2_available then ("skipped", "کتابخانه OpenCV نصب نیست")
  else
    match env.exc with
    | some e => ("corrupt", "خطا در بررسی ویدیو: " ++ e)
    | none =>
      if !env.opened then ("corrupt", "فایل ویدیو باز نشد")
      else if env.width ≤ 0 ∨ env.height ≤ 0 then ("corrupt", "ابعاد ویدیو نامعتبر")
      else
        let max_frames_to_check : Nat :=
          if env.frame_count ≤ 0 then 10 else min 10 env.frame_count.toNat
        let frames_read : Nat := min max_frames_to_check env.decodable
        if frames_read = 0 then ("corrupt", "هیچ فریمی خوانده نشد")
        else if 0 < env.frame_count ∧ 2 * frames_read < max_frames_to_check then
          ("suspicious", "بسیاری از فریم‌ها قابل خواندن نیستند")
        else
          let duration : Rat :=
            if 0 < env.frame_count ∧ env.fps ≠ 0 ∧ 0 < env.fps then
              (env.frame_count : Rat) / env.fps
            else 0
          if 0 < duration ∧ (size : Rat) / duration < 1000 then
            ("suspicious", "نرخ بیت ویدیو کم است")
          else ("healthy", "ویدیو سالم است")

/-- Outcome of the `subprocess.run` ffmpeg invocation: the process completed
with the given captured stderr bytes (`stderrText` models
`stderr.decode('utf-8', errors='ignore')` of those bytes), or
`subprocess.TimeoutExpired` was raised, or `FileNotFoundError` was raised
(tool binary missing), or some other exception was raised. -/
inductive FfmpegOutcome where
  | completed (stderr : List Nat) (stderrText : String)
  | timedOut
  | binaryMissing
  | failed (msg : String)
deriving DecidableEq

/-- `DamageDetector._check_video_with_ffmpeg` (02-damage_detector.py lines
288-302).  The truthiness test `if result.stderr:` is on the raw bytes. -/
def check_video_with_ffmpeg (outcome : FfmpegOutcome) : String × String :=
  match outcome with
  | .completed stderr text =>
    if stderr ≠ [] then ("corrupt", "خطا در ffmpeg: " ++ text)
    else ("healthy", "ویدیو سالم است (بررسی با ffmpeg)")
  | .timedOut => ("suspicious", "timeout در بررسی ویدیو")
  | .binaryMissing => ("skipped", "ffmpeg نصب نیست")
  | .failed e => ("corrupt", "خطا در بررسی با ffmpeg: " ++ e)

/-- `DamageDetector.check_video_corruption` of 02-damage_detector.py (lines
235-286): as `check_video_corruption` but without the bitrate heuristic, and
falling back to ffmpeg when OpenCV is unavailable. -/
def check_video_corruption_02 (cv2_available : Bool) (env : VideoEnv)
    (ffmpeg : FfmpegOutcome) : String × String :=
  if !cv2_available then check_video_with_ffmpeg ffmpeg
  else
    match env.exc with
    | some e => ("corrupt", "خطا در بررسی ویدیو: " ++ e)
    | none =>
      if !env.opened then ("corrupt", "فایل ویدیو باز نشد")
      else if env.width ≤ 0 ∨ env.height ≤ 0 then ("corrupt", "ابعاد ویدیو نامعتبر")
      else
        let max_frames_to_check : Nat :=
          if env.frame_count ≤ 0 then 10 else min 10 env.frame_count.toNat
        let frames_read : Nat := min max_frames_to_check env.decodable
        if frames_read = 0 then ("corrupt", "هیچ فریمی خوانده نشد")
        else if 0 < env.frame_count ∧ 2 * frames_read < max_frames_to_check then
          ("suspicious", "بسیاری از فریم‌ها قابل خواندن نیستند")
        else ("healthy", "ویدیو سالم است")

/-- The configuration slice `get_file_info` consults. -/
structure ScanConfig where
  image_extensions : List String
  video_extensions : List String
  min_file_size_bytes : Nat
  max_file_size_mb : Nat
deriving DecidableEq

/-- Filesystem view of one candidate path as `get_file_info` observes it.
`raises` models an exception during `stat`/`exists` (caught and turned into
`None` by the source). -/
structure FileStat where
  present : Bool := true
  raises : Bool := false
  size : Nat := 0
  suffix : String := ""
  mime : Option String := none
deriving DecidableEq

/-- `DamageDetector.get_file_info` (damage_detector.py lines 166-204;
02-damage_detector.py lines 105-142 adds only an `is_file` test folded into
`present` here). -/
def get_file_info (cfg : ScanConfig) (path name : String) (st : FileStat) :
    Option FileInfo :=
  if st.raises then none
  else if !st.present then none
  else if st.size < cfg.min_file_size_bytes then none
  else if st.size > cfg.max_file_size_mb * 1024 * 1024 then none
  else
    let extension := strLower st.suffix
    let is_image := cfg.image_extensions.contains extension
    let is_video := cfg.video_extensions.contains extension
    if !(is_image || is_video) then none
    else some { path := path, name := name, size := st.size, extension := extension,
                mime_type := st.mime.getD "unknown",
                is_image := is_image, is_video := is_video }

/-- The per-task environment of one verification: library availability and
behavior for this file, plus `escaped`, an exception escaping the dispatch
itself (caught by the outer `try` of `check_file_corruption`). -/
structure VerifyEnv where
  escaped : Option String := none
  pil_available : Bool := true
  decode : PILResult := PILResult.unidentified
  file : Except Unit (List Nat) := Except.ok []
  cv2_available : Bool := true
  video : VideoEnv := {}

/-- `DamageDetector.check_file_corruption` (damage_detector.py lines 363-384):
the FileRecord the task appends to the Result Store, `none` when the file is
neither image nor video and the routine returns without appending. -/
def check_file_corruption (fi : FileInfo) (env : VerifyEnv) : Option FileInfo :=
  match env.escaped with
  | some e => some { fi with corruption_status := "error", error_message := e }
  | none =>
    if fi.is_image then
      let r := check_image_corruption env.pil_available env.decode env.file fi.extension
      some { fi with corruption_status := r.1, corruption_details := r.2 }
    else if fi.is_video then
      let r := check_video_corruption env.cv2_available env.video fi.size
      some { fi with corruption_status := r.1, corruption_details := r.2 }
    else none

/-- The records `process_files` (damage_detector.py lines 407-469) accumulates
over one batch: one verification task per file, each completed task having
appended its record.  Completion order is abstracted as submission order; the
properties proved below are order-independent. -/
def process_files (files : List FileInfo) (env : FileInfo → VerifyEnv) :
    List FileInfo :=
  files.filterMap (fun f => check_file_corruption f (env f))

/-- Orchestrator checkpointing state: the Result Store, the
`processed_since_save` counter, and the content of the most recently written
partial-snapshot file. -/
structure ScanState where
  results : List FileInfo
  counter : Nat
  snapshot : List FileInfo
deriving DecidableEq

/-- The state at the start of `process_files`: empty store, zero counter, no
snapshot written yet. -/
def scan_init : ScanState := { results := [], counter := 0, snapshot := [] }

/-- One completion step of the `process_files` polling loop (damage_detector.py
lines 424-456): the completed task has appended its record,
`processed_since_save` increments, and when it reaches
`SAVE_PROGRESS_INTERVAL` — with incremental save enabled, an output directory
given, and the write succeeding, all folded into `save_enabled` — the entire
current Result Store is written out as a fresh full snapshot and the counter
resets to zero. -/
def step_completion (interval : Nat) (save_enabled : Bool) (st : ScanState)
    (record : FileInfo) : ScanState :=
  let results := st.results ++ [record]
  let counter := st.counter + 1
  if save_enabled ∧ interval ≤ counter then
    { results := results, counter := 0, snapshot := results }
  else
    { results := results, counter := counter, snapshot := st.snapshot }

/-- Destination folder chosen by `move_corrupted_files` (damage_detector.py
lines 546-559): the corrupted-files folder under the output directory, plus a
media-kind subfolder when `CREATE_SUBFOLDERS` is set. -/
def dest_folder_for (output_dir corrupted_name : String) (create_subfolders : Bool)
    (fi : FileInfo) : String :=
  let corrupted_folder := output_dir ++ "/" ++ corrupted_name
  if create_subfolders then
    corrupted_folder ++ "/" ++
      (if fi.is_image then "images" else if fi.is_video then "videos" else "others")
  else corrupted_folder

/-- The destination path `move_corrupted_files` first tries (damage_detector.py
lines 561-564): the destination folder joined with the source's base name.
The source takes `Path(file_info.path).name`, which equals the record's `name`
field set at discovery. -/
def dd_initial_dest_path (output_dir corrupted_name : String)
    (create_subfolders : Bool) (fi : FileInfo) : String :=
  dest_folder_for output_dir corrupted_name create_subfolders fi ++ "/" ++ fi.name

/-- The collision-resolution loop of `move_corrupted_files` (damage_detector.py
lines 567-572), given explicit fuel: while the candidate destination is
occupied, rename to `stem_counter + suffix` and increment the counter.
Returns `(dest_filename, dest_path)` once a free destination is found, `none`
if the fuel runs out first. -/
def resolve_collision (occupied : String → Bool) (dest_folder stem suffix : String) :
    Nat → Nat → String → String → Option (String × String)
  | 0, _, _, _ => none
  | fuel + 1, counter, dest_filename, dest_path =>
    if occupied dest_path then
      resolve_collision occupied dest_folder stem suffix fuel (counter + 1)
        (stem ++ "_" ++ toString counter ++ suffix)
        (dest_folder ++ "/" ++ (stem ++ "_" ++ toString counter ++ suffix))
    else some (dest_filename, dest_path)

/-- A filesystem as a partial map from path to byte content. -/
def FS : Type := String → Option (List Nat)

/-- `shutil.move src dst`: afterwards `dst` holds `src`'s former content, `src`
is gone, and every other path is untouched. -/
def move_file (fs : FS) (src dst : String) : FS :=
  fun p => if p = dst then fs src else if p = src then none else fs p

/-- The post-move record update of `move_corrupted_files` (damage_detector.py
lines 580-581): `file_info.path` and `file_info.name` are assigned the chosen
destination path and filename. -/
def update_after_move (fi : FileInfo) (dest_path dest_filename : String) :
    FileInfo :=
  { fi with path := dest_path, name := dest_filename }

/-- `DamageDetector._move_file_with_structure` of 02-damage_detector.py (lines
418-438), target-path computation.  Paths are modelled as component lists
(`pathlib` parts); `Path.relative_to` succeeds exactly when the base's
components are a prefix of the source's, and on `ValueError` the source's base
name (its last component) is used instead. -/
def move_target_path (source original_base target_base : List String) :
    List String :=
  if original_base.isPrefixOf source then
    target_base ++ source.drop original_base.length
  else
    target_base ++ [source.getLastD ""]

/-- The candidate set `scan_directory` collects (damage_detector.py lines
386-405): walk every path, keep the files `get_file_info` accepts.  Each input
is a (path, name, observed stat) triple. -/
def scan_candidates (cfg : ScanConfig) (inputs : List (String × String × FileStat)) :
    List FileInfo :=
  inputs.filterMap (fun i => get_file_info cfg i.1 i.2.1 i.2.2)

/-- Concrete configuration used by witnesses. -/
def sample_config : ScanConfig :=
  { image_extensions := [".jpg"], video_extensions := [".mp4"],
    min_file_size_bytes := 100, max_file_size_mb := 10000 }

/-- Concrete file stat used by witnesses. -/
def sample_stat : FileStat :=
  { present := true, raises := false, size := 1000, suffix := ".jpg",
    mime := some "image/jpeg" }

/-- Concrete verification environment used by witnesses. -/
def sample_env : VerifyEnv := {}

/-- Concrete two-file filesystem used by witnesses: one source file to
quarantine and one file already occupying the preferred destination. -/
def sample_fs : FS := fun p =>
  if p = "in/a.jpg" then some [1, 2, 3]
  else if p = "out/corrupted_files/images/a.jpg" then some [7]
  else none

/-- Concrete corrupt image record used by witnesses and counterexamples. -/
def sample_record : FileInfo :=
  { path := "in/sub/a.jpg", name := "a.jpg", size := 1000, extension := ".jpg",
    mime_type := "image/jpeg", is_image := true, is_video := false,
    corruption_status := "corrupt", corruption_details := "x",
    check_time := 0, error_message := "" }

/-- A filesystem over component-list paths, for the pathlib-based mover of
02-damage_detector.py. -/
def PathFS : Type := List String → Option (List Nat)

/-- The move performed by `DamageDetector._move_file_with_structure`
(02-damage_detector.py lines 418-438): compute the target via
`move_target_path`, create parent directories, and when the source exists call
`shutil.move(source, target)` — there is no existence check on the target, so
a file already at the target is replaced (POSIX `os.rename` semantics); when
the source does not exist, `FileNotFoundError` is raised (`none`). -/
def move_file_with_structure (fs : PathFS) (source original_base target_base : List String) :
    Option PathFS :=
  if (fs source).isSome then
    some (fun p =>
      if p = move_target_path source original_base target_base then fs source
      else if p = source then none else fs p)
  else none

/-- Concrete component-path filesystem used by the C6 counterexample: the
source file to quarantine, and a previously quarantined file already sitting
at the structure-preserving destination. -/
def sample_path_fs : PathFS := fun p =>
  if p = ["in", "sub", "a.jpg"] then some [1, 2, 3]
  else if p = ["quar", "sub", "a.jpg"] then some [7, 7]
  else none

/-! ## Helper lemmas -/

/-- The image verifier only ever returns the statuses skipped, corrupt or
healthy. -/
theorem check_image_status_cases (pil : Bool) (decode : PILResult)
    (file : Except Unit (List Nat)) (ext : String) :
    (check_image_corruption pil decode file ext).1 = "skipped" ∨
    (check_image_corruption pil decode file ext).1 = "corrupt" ∨
    (check_image_corruption pil decode file ext).1 = "healthy" := by
  unfold check_image_corruption
  cases pil
  · simp
  · cases decode <;> simp <;> split_ifs <;> simp

/-- Evaluation of the primary video path of damage_detector.py once the
guards (library present, no exception, container opened, positive dimensions)
have passed. -/
theorem check_video_eval (env : VideoEnv) (size : Nat)
    (hexc : env.exc = none) (hop : env.opened = true)
    (hw : 0 < env.width) (hh : 0 < env.height) :
    check_video_corruption true env size =
      (if min (if env.frame_count ≤ 0 then 10 else min 10 env.frame_count.toNat)
          env.decodable = 0 then
        ("corrupt", "هیچ فریمی خوانده نشد")
      else if 0 < env.frame_count ∧
          2 * min (if env.frame_count ≤ 0 then 10 else min 10 env.frame_count.toNat)
              env.decodable <
            (if env.frame_count ≤ 0 then 10 else min 10 env.frame_count.toNat) then
        ("suspicious", "بسیاری از فریم‌ها قابل خواندن نیستند")
      else if (0 < (if 0 < env.frame_count ∧ env.fps ≠ 0 ∧ 0 < env.fps then
              (env.frame_count : Rat) / env.fps else 0)) ∧
          (size : Rat) / (if 0 < env.frame_count ∧ env.fps ≠ 0 ∧ 0 < env.fps then
              (env.frame_count : Rat) / env.fps else 0) < 1000 then
        ("suspicious", "نرخ بیت ویدیو کم است")
      else ("healthy", "ویدیو سالم است")) := by
  unfold check_video_corruption
  rw [hexc]
  simp only [hop, Bool.not_true, Bool.false_eq_true, if_false]
  rw [if_neg (by omega)]

/-- Evaluation of the primary video path of 02-damage_detector.py once the
guards have passed. -/
theorem check_video_02_eval (env : VideoEnv) (ff : FfmpegOutcome)
    (hexc : env.exc = none) (hop : env.opened = true)
    (hw : 0 < env.width) (hh : 0 < env.height) :
    check_video_corruption_02 true env ff =
      (if min (if env.frame_count ≤ 0 then 10 else min 10 env.frame_count.toNat)
          env.decodable = 0 then
        ("corrupt", "هیچ فریمی خوانده نشد")
      else if 0 < env.frame_count ∧
          2 * min (if env.frame_count ≤ 0 then 10 else min 10 env.frame_count.toNat)
              env.decodable <
            (if env.frame_count ≤ 0 then 10 else min 10 env.frame_count.toNat) then
        ("suspicious", "بسیاری از فریم‌ها قابل خواندن نیستند")
      else ("healthy", "ویدیو سالم است")) := by
  unfold check_video_corruption_02
  rw [hexc]
  simp only [hop, Bool.not_true, Bool.false_eq_true, if_false]
  rw [if_neg (by omega)]

/-! ## C1 -/

/-- C1: `check_image_corruption` classifies per the spec's algorithm.  With
Pillow available: an unidentifiable format is `corrupt`; a decode exception is
`corrupt`; on a successful full decode, a non-positive width or height is
`corrupt` with the invalid-dimensions reason, a Trailer Validator failure is
`corrupt` with the trailer's reason, and otherwise the result is `healthy`.
With Pillow unavailable the routine short-circuits to `skipped` before any of
those checks. -/
theorem c1_image_verifier_algorithm
    (pil : Bool) (decode : PILResult) (file : Except Unit (List Nat)) (ext : String) :
    (pil = false → check_image_corruption pil decode file ext =
      ("skipped", "کتابخانه Pillow نصب نیست")) ∧
    (pil = true → decode = .unidentified → check_image_corruption pil decode file ext =
      ("corrupt", "فرمت تصویر شناسایی نشد")) ∧
    (∀ e, pil = true → (decode = .osError e ∨ decode = .otherError e) →
      (check_image_corruption pil decode file ext).1 = "corrupt") ∧
    (∀ w h, pil = true → decode = .ok w h → (w ≤ 0 ∨ h ≤ 0) →
      check_image_corruption pil decode file ext = ("corrupt", "ابعاد تصویر نامعتبر")) ∧
    (∀ w h, pil = true → decode = .ok w h → 0 < w → 0 < h →
      (check_image_trailer file ext).1 = false →
      check_image_corruption pil decode file ext =
        ("corrupt", (check_image_trailer file ext).2)) ∧
    (∀ w h, pil = true → decode = .ok w h → 0 < w → 0 < h →
      (check_image_trailer file ext).1 = true →
      check_image_corruption pil decode file ext = ("healthy", "تصویر سالم است")) := by
  refine ⟨?_, ?_, ?_, ?_, ?_, ?_⟩
  · rintro rfl; rfl
  · rintro rfl rfl; rfl
  · rintro e rfl (rfl | rfl)
    · unfold check_image_corruption
      simp only [Bool.not_true, Bool.false_eq_true, if_false]
      split_ifs <;> rfl
    · rfl
  · rintro w h rfl rfl hwh
    unfold check_image_corruption
    simp only [Bool.not_true, Bool.false_eq_true, if_false]
    rw [if_pos hwh]
  · rintro w h rfl rfl hw hh htr
    unfold check_image_corruption
    simp only [Bool.not_true, Bool.false_eq_true, if_false]
    rw [if_neg (by omega), htr]
    simp
  · rintro w h rfl rfl hw hh htr
    unfold check_image_corruption
    simp only [Bool.not_true, Bool.false_eq_true, if_false]
    rw [if_neg (by omega), htr]
    simp

/-- C1 witness: a decodable 10×10 image whose JPEG trailer is present in the
tail window is classified healthy. -/
theorem c1_image_verifier_algorithm_witness :
    check_image_corruption true (.ok 10 10) (.ok [255, 216, 255, 217]) ".jpg" =
      ("healthy", "تصویر سالم است") :=
  (c1_image_verifier_algorithm true (.ok 10 10) (.ok [255, 216, 255, 217]) ".jpg").2.2.2.2.2
    10 10 rfl rfl (by decide) (by decide) (by decide)

/-! ## C2 -/

/-- C2 counterexample: a video whose frame count is known (10), whose 10
sampled frames all decode, with positive dimensions — the claim requires
`healthy` here, but damage_detector.py's bitrate heuristic (100 bytes over a
1/3-second duration is below 1000 bytes per second) returns `suspicious`. -/
theorem c2_low_bitrate_counterexample :
    check_video_corruption true
      { exc := none, opened := true, frame_count := 10, fps := 30,
        width := 1920, height := 1080, decodable := 10 } 100 =
      ("suspicious", "نرخ بیت ویدیو کم است") ∧
    ("suspicious" : String) ≠ "healthy" := by
  constructor
  · simp only [check_video_corruption]
    norm_num
  · decide

/-- C2 amended: on the primary path both verifiers sample
`min(10, frameCount)` frames (exactly 10 when the count is non-positive) by
sequential decode; zero decoded frames gives `corrupt` with the no-frames
reason; a known frame count with fewer than half the sampled frames decoding
gives `suspicious`; otherwise 02-damage_detector.py returns `healthy`, while
damage_detector.py additionally returns `suspicious` (low bitrate) when the
frame count and fps are positive and the file carries fewer than 1000 bytes
per second of duration, returning `healthy` in every remaining case. -/
theorem c2_video_sampling_amended (env : VideoEnv) (size : Nat) (ff : FfmpegOutcome)
    (hexc : env.exc = none) (hop : env.opened = true)
    (hw : 0 < env.width) (hh : 0 < env.height) :
    (min (if 0 < env.frame_count then min 10 env.frame_count.toNat else 10) env.decodable = 0 →
      check_video_corruption true env size = ("corrupt", "هیچ فریمی خوانده نشد") ∧
      check_video_corruption_02 true env ff = ("corrupt", "هیچ فریمی خوانده نشد")) ∧
    (∀ fr mx, mx = (if 0 < env.frame_count then min 10 env.frame_count.toNat else 10) →
      fr = min mx env.decodable → 0 < fr → 0 < env.frame_count → 2 * fr < mx →
      check_video_corruption true env size =
        ("suspicious", "بسیاری از فریم‌ها قابل خواندن نیستند") ∧
      check_video_corruption_02 true env ff =
        ("suspicious", "بسیاری از فریم‌ها قابل خواندن نیستند")) ∧
    (∀ fr mx, mx = (if 0 < env.frame_count then min 10 env.frame_count.toNat else 10) →
      fr = min mx env.decodable → 0 < fr → ¬ (0 < env.frame_count ∧ 2 * fr < mx) →
      check_video_corruption_02 true env ff = ("healthy", "ویدیو سالم است") ∧
      (0 < env.frame_count → 0 < env.fps →
        (size : Rat) / ((env.frame_count : Rat) / env.fps) < 1000 →
        check_video_corruption true env size = ("suspicious", "نرخ بیت ویدیو کم است")) ∧
      (¬ (0 < env.frame_count ∧ 0 < env.fps ∧
          (size : Rat) / ((env.frame_count : Rat) / env.fps) < 1000) →
        check_video_corruption true env size = ("healthy", "ویدیو سالم است"))) := by
  have hmax : (if env.frame_count ≤ 0 then (10 : Nat) else min 10 env.frame_count.toNat)
      = (if 0 < env.frame_count then min 10 env.frame_count.toNat else 10) := by
    rcases lt_or_le 0 env.frame_count with h | h
    · rw [if_neg (by omega), if_pos h]
    · rw [if_pos h, if_neg (by omega)]
  rw [check_video_eval env size hexc hop hw hh, check_video_02_eval env ff hexc hop hw hh,
    hmax]
  refine ⟨?_, ?_, ?_⟩
  · intro hzero
    simp only [if_pos hzero]
    exact ⟨trivial, trivial⟩
  · rintro fr mx rfl rfl hpos hfc hhalf
    have hfr : ¬((if 0 < env.frame_count then min 10 env.frame_count.toNat else 10) ⊓
        env.decodable = 0) := by omega
    simp only [if_neg hfr, if_pos (And.intro hfc hhalf)]
    exact ⟨trivial, trivial⟩
  · rintro fr mx rfl rfl hpos hnot
    have hfr : ¬((if 0 < env.frame_count then min 10 env.frame_count.toNat else 10) ⊓
        env.decodable = 0) := by omega
    simp only [if_neg hfr, if_neg hnot]
    refine ⟨trivial, ?_, ?_⟩
    · intro hfc hfps hbit
      have hdc : (0 < env.frame_count ∧ env.fps ≠ 0 ∧ 0 < env.fps) :=
        ⟨hfc, ne_of_gt hfps, hfps⟩
      have hdpos : (0 : Rat) < (env.frame_count : Rat) / env.fps :=
        div_pos (by exact_mod_cast hfc) hfps
      simp only [if_pos hdc, if_pos (And.intro hdpos hbit)]
    · intro hno
      by_cases hc : 0 < env.frame_count ∧ env.fps ≠ 0 ∧ 0 < env.fps
      · simp only [if_pos hc]
        rw [if_neg]
        rintro ⟨hdpos, hbit⟩
        exact hno ⟨hc.1, hc.2.2, hbit⟩
      · simp only [if_neg hc]
        rw [if_neg]
        rintro ⟨hdpos, hbit⟩
        exact absurd hdpos (by norm_num)

/-- C2 witness: a known-frame-count video with all sampled frames decoding and
an adequate bitrate is healthy on the primary path. -/
theorem c2_video_sampling_amended_witness :
    check_video_corruption true
      { exc := none, opened := true, frame_count := 10, fps := 30,
        width := 1920, height := 1080, decodable := 10 } 1000000 =
      ("healthy", "ویدیو سالم است") := by
  have h := (c2_video_sampling_amended
      { exc := none, opened := true, frame_count := 10, fps := 30,
        width := 1920, height := 1080, decodable := 10 } 1000000
      (FfmpegOutcome.timedOut) rfl rfl (by decide) (by decide)).2.2
      10 10 (by decide) (by decide) (by decide) (by decide)
  exact h.2.2 (by norm_num)

/-! ## C3 -/

/-- C3 counterexample: in damage_detector.py, when the decode library is
unavailable the video verifier returns `skipped` outright — it never invokes
the external validation tool, so even a file whose diagnostic output would be
non-empty is not classified `corrupt` as the claim requires. -/
theorem c3_skipped_without_ffmpeg_counterexample :
    check_video_corruption false {} 100 = ("skipped", "کتابخانه OpenCV نصب نیست") ∧
    ("skipped" : String) ≠ "corrupt" := ⟨rfl, by decide⟩

/-- C3 amended: in 02-damage_detector.py, whenever the decode library is
unavailable the video verifier invokes ffmpeg under a wall-clock timeout and
maps non-empty diagnostic output to `corrupt`, timeout expiry to `suspicious`,
a missing tool binary to `skipped`, and any other invocation failure to
`corrupt` with the captured message; in damage_detector.py, decode-library
unavailability yields `skipped` directly without invoking the tool. -/
theorem c3_ffmpeg_fallback_amended (env : VideoEnv) (size : Nat) :
    (∀ stderr text, stderr ≠ [] →
      check_video_corruption_02 false env (.completed stderr text) =
        ("corrupt", "خطا در ffmpeg: " ++ text)) ∧
    (∀ text, check_video_corruption_02 false env (.completed [] text) =
      ("healthy", "ویدیو سالم است (بررسی با ffmpeg)")) ∧
    check_video_corruption_02 false env .timedOut =
      ("suspicious", "timeout در بررسی ویدیو") ∧
    check_video_corruption_02 false env .binaryMissing = ("skipped", "ffmpeg نصب نیست") ∧
    (∀ e, check_video_corruption_02 false env (.failed e) =
      ("corrupt", "خطا در بررسی با ffmpeg: " ++ e)) ∧
    check_video_corruption false env size = ("skipped", "کتابخانه OpenCV نصب نیست") := by
  refine ⟨?_, fun text => rfl, rfl, rfl, fun e => rfl, rfl⟩
  intro stderr text hne
  have hred : check_video_corruption_02 false env (.completed stderr text) =
      if stderr ≠ [] then ("corrupt", "خطا در ffmpeg: " ++ text)
      else ("healthy", "ویدیو سالم است (بررسی با ffmpeg)") := rfl
  rw [hred, if_pos hne]

/-- C3 witness: a completed ffmpeg run with non-empty diagnostics is corrupt
on the fallback path. -/
theorem c3_ffmpeg_fallback_amended_witness :
    check_video_corruption_02 false {} (.completed [109] "moov atom not found") =
      ("corrupt", "خطا در ffmpeg: " ++ "moov atom not found") :=
  (c3_ffmpeg_fallback_amended {} 0).1 [109] "moov atom not found" (by decide)

/-! ## C4 -/

/-- C4: the Trailer Validator returns ok for a JPEG exactly when the two bytes
0xFF 0xD9 appear somewhere in the last 64 KiB of the file (the whole file when
smaller); it returns ok unconditionally for any extension other than
JPEG/PNG/GIF; and it returns not-ok with the generic failure reason whenever
reading the tail raises an I/O error. -/
theorem c4_trailer_validator (ext : String) (bytes : List Nat) :
    ((strLower ext = ".jpg" ∨ strLower ext = ".jpeg") →
      ((check_image_trailer (.ok bytes) ext).1 = true ↔
        [0xFF, 0xD9] <:+: tailWindow bytes (64 * 1024))) ∧
    (strLower ext ∉ ([".jpg", ".jpeg", ".png", ".gif"] : List String) →
      ∀ file, check_image_trailer file ext = (true, "")) ∧
    (strLower ext ∈ ([".jpg", ".jpeg", ".png", ".gif"] : List String) →
      check_image_trailer (.error ()) ext = (false, "بررسی پایان فایل با خطا مواجه شد")) := by
  refine ⟨?_, ?_, ?_⟩
  · intro hjpg
    unfold check_image_trailer
    rw [if_pos hjpg]
    show (if bytes.length < 2 then ((false, "تصویر ناقص/بریده (اندازه بسیار کم)") : Bool × String)
        else if bytesContains (tailWindow bytes (64 * 1024)) [0xFF, 0xD9] then (true, "")
        else (false, "پایان فایل JPEG (FFD9) یافت نشد")).1 = true ↔
      [0xFF, 0xD9] <:+: tailWindow bytes (64 * 1024)
    by_cases hlen : bytes.length < 2
    · rw [if_pos hlen]
      simp only [Bool.false_eq_true, false_iff]
      intro h
      have hle := h.length_le
      simp only [List.length_cons, List.length_nil, tailWindow, List.length_drop] at hle
      omega
    · rw [if_neg hlen]
      by_cases hin : [0xFF, 0xD9] <:+: tailWindow bytes (64 * 1024)
      · have hb : bytesContains (tailWindow bytes (64 * 1024)) [0xFF, 0xD9] = true := by
          simp [bytesContains, hin]
        rw [if_pos hb]
        simp [hin]
      · have hb : ¬ (bytesContains (tailWindow bytes (64 * 1024)) [0xFF, 0xD9] = true) := by
          simp [bytesContains, hin]
        rw [if_neg hb]
        simp [hin]
  · intro hnot file
    simp only [List.mem_cons, List.not_mem_nil, or_false, not_or] at hnot
    unfold check_image_trailer
    rw [if_neg (by tauto), if_neg hnot.2.2.1, if_neg hnot.2.2.2]
  · intro hmem
    simp only [List.mem_cons, List.not_mem_nil, or_false] at hmem
    unfold check_image_trailer
    rcases hmem with h | h | h | h <;> rw [h] <;> decide

/-- C4 witness: a small JPEG whose end marker sits in the tail window
validates ok. -/
theorem c4_trailer_validator_witness :
    (check_image_trailer (.ok [255, 216, 255, 217]) ".jpg").1 = true :=
  ((c4_trailer_validator ".jpg" [255, 216, 255, 217]).1 (by decide)).mpr (by decide)

/-! ## C5 -/

/-- The video verifier only ever returns the statuses skipped, corrupt,
suspicious or healthy. -/
theorem check_video_status_cases (b : Bool) (env : VideoEnv) (size : Nat) :
    (check_video_corruption b env size).1 = "skipped" ∨
    (check_video_corruption b env size).1 = "corrupt" ∨
    (check_video_corruption b env size).1 = "suspicious" ∨
    (check_video_corruption b env size).1 = "healthy" := by
  unfold check_video_corruption
  cases b
  · simp
  · cases h : env.exc
    · simp
      split_ifs <;> simp
    · simp

/-- Every record `get_file_info` accepts is an image or video candidate and
starts in the `unknown` status. -/
theorem get_file_info_candidate (cfg : ScanConfig) (path name : String) (st : FileStat)
    (fi : FileInfo) (h : get_file_info cfg path name st = some fi) :
    (fi.is_image = true ∨ fi.is_video = true) ∧ fi.corruption_status = "unknown" := by
  unfold get_file_info at h
  simp only [] at h
  split_ifs at h with h1 h2 h3 h4 h5
  injection h with hh
  subst hh
  refine ⟨?_, rfl⟩
  show cfg.image_extensions.contains (strLower st.suffix) = true ∨
      cfg.video_extensions.contains (strLower st.suffix) = true
  revert h5
  cases cfg.image_extensions.contains (strLower st.suffix) <;>
    cases cfg.video_extensions.contains (strLower st.suffix) <;> simp

/-- Whatever record a verification task appends carries one of the five
terminal statuses, never `unknown`. -/
theorem check_file_status_mem (fi : FileInfo) (env : VerifyEnv) (r : FileInfo)
    (h : check_file_corruption fi env = some r) :
    r.corruption_status ∈
      (["healthy", "corrupt", "suspicious", "skipped", "error"] : List String) ∧
    r.corruption_status ≠ "unknown" := by
  unfold check_file_corruption at h
  cases henv : env.escaped with
  | some e =>
    rw [henv] at h
    injection h with hh
    subst hh
    exact ⟨by simp, by simp⟩
  | none =>
    rw [henv] at h
    split_ifs at h with hi hv
    · injection h with hh
      subst hh
      have hs := check_image_status_cases env.pil_available env.decode env.file fi.extension
      constructor
      · rcases hs with hs | hs | hs <;> simp [hs]
      · rcases hs with hs | hs | hs <;> simp [hs]
    · injection h with hh
      subst hh
      have hs := check_video_status_cases env.cv2_available env.video fi.size
      constructor
      · rcases hs with hs | hs | hs | hs <;> simp [hs]
      · rcases hs with hs | hs | hs | hs <;> simp [hs]

/-- Every image or video candidate's verification task appends a record. -/
theorem check_file_total (fi : FileInfo) (env : VerifyEnv)
    (hc : fi.is_image = true ∨ fi.is_video = true) :
    ∃ r, check_file_corruption fi env = some r := by
  unfold check_file_corruption
  cases henv : env.escaped with
  | some e => exact ⟨_, rfl⟩
  | none =>
    by_cases hi : fi.is_image = true
    · rw [if_pos hi]
      exact ⟨_, rfl⟩
    · rw [if_neg hi]
      rcases hc with h | h
      · exact absurd h hi
      · rw [if_pos h]
        exact ⟨_, rfl⟩

/-- A filterMap over a list on which the function is everywhere defined keeps
the list's length. -/
theorem filterMap_length_of_all_some {α β : Type} (f : α → Option β) (l : List α)
    (h : ∀ a ∈ l, ∃ b, f a = some b) : (l.filterMap f).length = l.length := by
  induction l with
  | nil => rfl
  | cons a t ih =>
    rcases h a (List.mem_cons_self a t) with ⟨b, hb⟩
    rw [List.filterMap_cons, hb]
    simp only [List.length_cons]
    rw [ih (fun x hx => h x (List.mem_cons_of_mem a hx))]

/-- C5: after a completed scan every candidate file has exactly one record —
the record list is as long as the candidate list, so with each task appending
at most one record none is missing or duplicated — each record's status lies
in {healthy, corrupt, suspicious, skipped, error} and is never `unknown`, and
an exception escaping a verification task becomes an `error`-status record
(the fold over the remaining tasks being total, neither the batch nor the
scan aborts). -/
theorem c5_every_candidate_classified (cfg : ScanConfig)
    (inputs : List (String × String × FileStat)) (env : FileInfo → VerifyEnv) :
    (process_files (scan_candidates cfg inputs) env).length =
      (scan_candidates cfg inputs).length ∧
    (∀ r ∈ process_files (scan_candidates cfg inputs) env,
      r.corruption_status ∈
        (["healthy", "corrupt", "suspicious", "skipped", "error"] : List String) ∧
      r.corruption_status ≠ "unknown") ∧
    (∀ fi e msg, VerifyEnv.escaped e = some msg →
      check_file_corruption fi e =
        some { fi with corruption_status := "error", error_message := msg }) := by
  refine ⟨?_, ?_, ?_⟩
  · apply filterMap_length_of_all_some
    intro f hf
    rcases List.mem_filterMap.mp hf with ⟨i, hi, hsome⟩
    exact check_file_total f (env f) (get_file_info_candidate cfg i.1 i.2.1 i.2.2 f hsome).1
  · intro r hr
    rcases List.mem_filterMap.mp hr with ⟨f, hf, hsome⟩
    exact check_file_status_mem f (env f) r hsome
  · intro fi e msg h
    unfold check_file_corruption
    rw [h]

/-- C5 witness: a one-candidate scan produces exactly one record. -/
theorem c5_every_candidate_classified_witness :
    (process_files (scan_candidates sample_config [("in/a.jpg", "a.jpg", sample_stat)])
        (fun _ => sample_env)).length =
      (scan_candidates sample_config [("in/a.jpg", "a.jpg", sample_stat)]).length :=
  (c5_every_candidate_classified sample_config [("in/a.jpg", "a.jpg", sample_stat)]
    (fun _ => sample_env)).1

/-! ## C6 -/

/-- The collision loop only ever stops at an unoccupied destination. -/
theorem resolve_collision_free (occupied : String → Bool)
    (dest_folder stem suffix : String) :
    ∀ (fuel counter : Nat) (fn fp f p : String),
      resolve_collision occupied dest_folder stem suffix fuel counter fn fp = some (f, p) →
      occupied p = false := by
  intro fuel
  induction fuel with
  | zero => intro counter fn fp f p h; cases h
  | succ n ih =>
    intro counter fn fp f p h
    unfold resolve_collision at h
    by_cases hocc : occupied fp = true
    · rw [if_pos hocc] at h
      exact ih _ _ _ _ _ h
    · rw [if_neg hocc] at h
      injection h with hh
      cases hh
      simpa using hocc

/-- The collision loop returns either its starting candidate or a
disambiguated `stem_counter + suffix` name under the destination folder. -/
theorem resolve_collision_shape (occupied : String → Bool)
    (dest_folder stem suffix : String) :
    ∀ (fuel counter : Nat) (fn fp f p : String),
      resolve_collision occupied dest_folder stem suffix fuel counter fn fp = some (f, p) →
      (f = fn ∧ p = fp) ∨
      ∃ n, counter ≤ n ∧ f = stem ++ "_" ++ toString n ++ suffix ∧
        p = dest_folder ++ "/" ++ f := by
  intro fuel
  induction fuel with
  | zero => intro counter fn fp f p h; cases h
  | succ m ih =>
    intro counter fn fp f p h
    unfold resolve_collision at h
    by_cases hocc : occupied fp = true
    · rw [if_pos hocc] at h
      rcases ih _ _ _ _ _ h with ⟨rfl, rfl⟩ | ⟨n, hn, hf, hp⟩
      · right
        exact ⟨counter, le_refl _, rfl, rfl⟩
      · right
        exact ⟨n, by omega, hf, hp⟩
    · rw [if_neg hocc] at h
      injection h with hh
      cases hh
      left
      exact ⟨rfl, rfl⟩

/-- C6 counterexample: 02-damage_detector.py's `_move_file_with_structure`
has no collision loop — with `quar/sub/a.jpg` already holding a previously
quarantined file's content `[7, 7]`, moving `in/sub/a.jpg` computes exactly
that destination and writes its content `[1, 2, 3]` over it: the move
overwrites an existing destination file (destroying its content) instead of
retrying with a numeric disambiguator as the claim states. -/
theorem c6_overwrite_counterexample :
    sample_path_fs ["quar", "sub", "a.jpg"] = some [7, 7] ∧
    move_target_path ["in", "sub", "a.jpg"] ["in"] ["quar"] = ["quar", "sub", "a.jpg"] ∧
    (move_file_with_structure sample_path_fs ["in", "sub", "a.jpg"] ["in"] ["quar"]).map
      (fun fs2 => fs2 ["quar", "sub", "a.jpg"]) = some (some [1, 2, 3]) := by
  refine ⟨rfl, by decide, by decide⟩

/-- C6 amended: in damage_detector.py's Separator, when the computed
destination already exists a numeric disambiguator is appended before the
extension and retried until a free name is found, so whenever that loop
returns a destination nothing existed there (the move overwrites no file),
the moved content arrives intact, every other path is untouched, and the
chosen name is the original or a numeric disambiguation of it; in
02-damage_detector.py's Separator there is no collision check: the move
writes the source's content to the structure-preserving target
unconditionally — replacing whatever file is already there — leaving other
paths untouched, and raises when the source is missing. -/
theorem c6_collision_handling_amended (fs : FS) (dest_folder stem suffix name src : String)
    (fuel : Nat) (f p : String)
    (pfs : PathFS) (source original_base target_base : List String)
    (hres : resolve_collision (fun q => (fs q).isSome) dest_folder stem suffix fuel 1
      name (dest_folder ++ "/" ++ name) = some (f, p)) :
    (fs p = none ∧
     move_file fs src p p = fs src ∧
     (∀ q, q ≠ p → q ≠ src → move_file fs src p q = fs q) ∧
     (p = dest_folder ++ "/" ++ name ∨
       ∃ n, 1 ≤ n ∧ f = stem ++ "_" ++ toString n ++ suffix ∧
         p = dest_folder ++ "/" ++ f)) ∧
    (∀ content, pfs source = some content →
      ∃ pfs2, move_file_with_structure pfs source original_base target_base = some pfs2 ∧
        pfs2 (move_target_path source original_base target_base) = some content ∧
        (∀ q, q ≠ move_target_path source original_base target_base → q ≠ source →
          pfs2 q = pfs q)) ∧
    (pfs source = none →
      move_file_with_structure pfs source original_base target_base = none) := by
  refine ⟨?_, ?_, ?_⟩
  · have hfree : (fs p).isSome = false :=
      resolve_collision_free (fun q => (fs q).isSome) dest_folder stem suffix
        fuel 1 name (dest_folder ++ "/" ++ name) f p hres
    have hnone : fs p = none := by
      cases hfs : fs p with
      | none => rfl
      | some v =>
        rw [hfs] at hfree
        cases hfree
    refine ⟨hnone, ?_, ?_, ?_⟩
    · unfold move_file
      rw [if_pos rfl]
    · intro q hqp hqs
      unfold move_file
      rw [if_neg hqp, if_neg hqs]
    · rcases resolve_collision_shape (fun q => (fs q).isSome) dest_folder stem suffix
          fuel 1 name (dest_folder ++ "/" ++ name) f p hres with ⟨rfl, rfl⟩ | hs
      · left
        rfl
      · right
        exact hs
  · intro content hsrc
    unfold move_file_with_structure
    rw [hsrc]
    refine ⟨_, rfl, ?_, ?_⟩
    · rw [if_pos rfl]
    · intro q hqt hqs
      rw [if_neg hqt, if_neg hqs]
  · intro hsrc
    unfold move_file_with_structure
    rw [hsrc]
    rfl

/-- C6 witness: on the damage_detector.py side the loop lands on the free
`a_1.jpg` slot; on the 02-damage_detector.py side the source content arrives
at the computed target. -/
theorem c6_collision_handling_amended_witness :
    sample_fs "out/corrupted_files/images/a_1.jpg" = none ∧
    (∃ pfs2, move_file_with_structure sample_path_fs ["in", "sub", "a.jpg"] ["in"] ["quar"] =
        some pfs2 ∧
      pfs2 (move_target_path ["in", "sub", "a.jpg"] ["in"] ["quar"]) = some [1, 2, 3] ∧
      (∀ q, q ≠ move_target_path ["in", "sub", "a.jpg"] ["in"] ["quar"] →
        q ≠ ["in", "sub", "a.jpg"] → pfs2 q = sample_path_fs q)) := by
  have h := c6_collision_handling_amended sample_fs "out/corrupted_files/images" "a" ".jpg"
      "a.jpg" "in/a.jpg" 3 "a_1.jpg" "out/corrupted_files/images/a_1.jpg"
      sample_path_fs ["in", "sub", "a.jpg"] ["in"] ["quar"] (by decide)
  exact ⟨h.1.1, h.2.1 [1, 2, 3] rfl⟩

/-! ## C7 -/

/-- C7 counterexample: damage_detector.py's quarantine destination for the
record at `in/sub/a.jpg` (scanned root `in`, relative path `sub/a.jpg`) is
`out/corrupted_files/images/a.jpg` — the relative directory layout is not
preserved: no destination of the form quarantine-root ++ relative path can
lack the `sub/a.jpg` tail. -/
theorem c7_basename_only_counterexample :
    dd_initial_dest_path "out" "corrupted_files" true sample_record =
      "out/corrupted_files/images/a.jpg" ∧
    "sub/a.jpg".data.isSuffixOf "out/corrupted_files/images/a.jpg".data = false := by
  constructor
  · rfl
  · decide

/-- C7 amended: 02-damage_detector.py's Separator builds the destination from
the file's path relative to the originally scanned root, preserving the
relative layout under the quarantine root, falling back to just the base name
when the path is not under that root; damage_detector.py's Separator instead
always uses only the base name under the (optionally media-kind-subfoldered)
quarantine folder, discarding the relative layout. -/
theorem c7_structure_preserving_amended (source original_base target_base : List String)
    (output_dir corrupted_name : String) (create_subfolders : Bool) (fi : FileInfo) :
    (original_base <+: source →
      move_target_path source original_base target_base =
        target_base ++ source.drop original_base.length) ∧
    (¬ original_base <+: source →
      move_target_path source original_base target_base =
        target_base ++ [source.getLastD ""]) ∧
    dd_initial_dest_path output_dir corrupted_name create_subfolders fi =
      dest_folder_for output_dir corrupted_name create_subfolders fi ++ "/" ++ fi.name := by
  refine ⟨?_, ?_, rfl⟩
  · intro hpre
    unfold move_target_path
    rw [if_pos (List.isPrefixOf_iff_prefix.mpr hpre)]
  · intro hpre
    unfold move_target_path
    rw [if_neg (fun hc => hpre (List.isPrefixOf_iff_prefix.mp hc))]

/-- C7 witness: a file under the scanned root keeps its relative layout under
the quarantine root on the structure-preserving path. -/
theorem c7_structure_preserving_amended_witness :
    move_target_path ["in", "sub", "a.jpg"] ["in"] ["out", "Corrupt_Files"] =
      ["out", "Corrupt_Files", "sub", "a.jpg"] := by
  have h := (c7_structure_preserving_amended ["in", "sub", "a.jpg"] ["in"]
      ["out", "Corrupt_Files"] "out" "corrupted_files" true sample_record).1 (by decide)
  simpa using h

/-! ## C8 -/

/-- The checkpoint invariant: the last snapshot is a prefix of the Result
Store, the store is exactly that snapshot plus `counter` newer records, and
the counter stays below the interval. -/
theorem step_completion_invariant (interval : Nat) (hpos : 1 ≤ interval) :
    ∀ (completions : List FileInfo) (st : ScanState),
      st.snapshot <+: st.results →
      st.results.length = st.snapshot.length + st.counter →
      st.counter < interval →
      ((completions.foldl (step_completion interval true) st).snapshot <+:
        (completions.foldl (step_completion interval true) st).results) ∧
      (completions.foldl (step_completion interval true) st).results.length =
        (completions.foldl (step_completion interval true) st).snapshot.length +
          (completions.foldl (step_completion interval true) st).counter ∧
      (completions.foldl (step_completion interval true) st).counter < interval := by
  intro completions
  induction completions with
  | nil => intro st h1 h2 h3; exact ⟨h1, h2, h3⟩
  | cons r t ih =>
    intro st h1 h2 h3
    rw [List.foldl_cons]
    apply ih
    · simp only [step_completion]
      split_ifs with hsave
      · exact List.prefix_rfl
      · exact h1.trans (List.prefix_append _ _)
    · simp only [step_completion]
      split_ifs with hsave
      · simp
      · simp only [List.length_append, List.length_cons, List.length_nil]
        omega
    · simp only [step_completion]
      split_ifs with hsave
      · show (0 : Nat) < interval
        omega
      · show st.counter + 1 < interval
        simp at hsave
        omega

/-- C8: with incremental saving on, after any sequence of task completions the
last snapshot is a complete prefix of the Result Store (each snapshot being a
full replacement copy of the store at save time), and the number of completed
classifications not yet captured in a snapshot never exceeds
`checkpointInterval - 1`. -/
theorem c8_checkpoint_loss_bound (interval : Nat) (hpos : 1 ≤ interval)
    (completions : List FileInfo) :
    ((completions.foldl (step_completion interval true) scan_init).snapshot <+:
      (completions.foldl (step_completion interval true) scan_init).results) ∧
    (completions.foldl (step_completion interval true) scan_init).results.length -
      (completions.foldl (step_completion interval true) scan_init).snapshot.length ≤
      interval - 1 := by
  obtain ⟨ha, hb, hc⟩ := step_completion_invariant interval hpos completions scan_init
    List.prefix_rfl rfl (show 0 < interval by omega)
  exact ⟨ha, by omega⟩

/-- C8 witness: three completions at interval 2 leave at most one uncaptured
record. -/
theorem c8_checkpoint_loss_bound_witness :
    (([sample_record, sample_record, sample_record].foldl (step_completion 2 true)
        scan_init).snapshot <+:
      ([sample_record, sample_record, sample_record].foldl (step_completion 2 true)
        scan_init).results) ∧
    ([sample_record, sample_record, sample_record].foldl (step_completion 2 true)
        scan_init).results.length -
      ([sample_record, sample_record, sample_record].foldl (step_completion 2 true)
        scan_init).snapshot.length ≤ 2 - 1 :=
  c8_checkpoint_loss_bound 2 (by decide) [sample_record, sample_record, sample_record]

/-! ## C9 -/

/-- C9 counterexample: when the preferred destination is occupied the
separator's collision loop picks the disambiguated filename `a_1.jpg`, and the
post-move record update then changes the record's `name` field — not only
`path` as the claim states. -/
theorem c9_name_mutation_counterexample :
    resolve_collision (fun q => q == "out/corrupted_files/images/a.jpg")
        "out/corrupted_files/images" "a" ".jpg" 3 1 "a.jpg"
        "out/corrupted_files/images/a.jpg" =
      some ("a_1.jpg", "out/corrupted_files/images/a_1.jpg") ∧
    (update_after_move sample_record "out/corrupted_files/images/a_1.jpg" "a_1.jpg").name ≠
      sample_record.name := by
  constructor
  · decide
  · decide

/-- C9 amended: the Separator's post-move update touches exactly the `path`
and `name` fields; size, media kind, statuses, details, timing and error
fields are unchanged for the record's lifetime. -/
theorem c9_path_and_name_only_amended (fi : FileInfo) (dest_path dest_filename : String) :
    (update_after_move fi dest_path dest_filename).path = dest_path ∧
    (update_after_move fi dest_path dest_filename).name = dest_filename ∧
    (update_after_move fi dest_path dest_filename).size = fi.size ∧
    (update_after_move fi dest_path dest_filename).extension = fi.extension ∧
    (update_after_move fi dest_path dest_filename).mime_type = fi.mime_type ∧
    (update_after_move fi dest_path dest_filename).is_image = fi.is_image ∧
    (update_after_move fi dest_path dest_filename).is_video = fi.is_video ∧
    (update_after_move fi dest_path dest_filename).corruption_status = fi.corruption_status ∧
    (update_after_move fi dest_path dest_filename).corruption_details = fi.corruption_details ∧
    (update_after_move fi dest_path dest_filename).check_time = fi.check_time ∧
    (update_after_move fi dest_path dest_filename).error_message = fi.error_message :=
  ⟨rfl, rfl, rfl, rfl, rfl, rfl, rfl, rfl, rfl, rfl, rfl⟩

/-! ## C10 -/

/-- The 02-damage_detector.py video verifier only ever returns the statuses
skipped, corrupt, suspicious or healthy. -/
theorem check_video_02_status_cases (b : Bool) (env : VideoEnv) (ff : FfmpegOutcome) :
    (check_video_corruption_02 b env ff).1 = "skipped" ∨
    (check_video_corruption_02 b env ff).1 = "corrupt" ∨
    (check_video_corruption_02 b env ff).1 = "suspicious" ∨
    (check_video_corruption_02 b env ff).1 = "healthy" := by
  unfold check_video_corruption_02 check_video_with_ffmpeg
  cases b
  · cases ff
    · simp
      split_ifs <;> simp
    · simp
    · simp
    · simp
  · cases h : env.exc
    · simp
      split_ifs <;> simp
    · simp

/-- C10 counterexample: a `FileNotFoundError` exception raised inside the
02-damage_detector.py video verification routine's ffmpeg fallback is caught
by a specific handler and returned as `skipped`, not as `corrupt` with the
exception message as the claim states. -/
theorem c10_fallback_exception_counterexample :
    check_video_corruption_02 false {} .binaryMissing = ("skipped", "ffmpeg نصب نیست") ∧
    ("skipped" : String) ≠ "corrupt" := ⟨rfl, by decide⟩

/-- C10 amended: every exception raised inside the image verification routine
and inside the video routine's decode path is caught in the routine and
returned as `corrupt`; in the ffmpeg fallback a timeout exception yields
`suspicious`, a missing-binary exception yields `skipped`, and any other
invocation failure yields `corrupt` with the captured message; in every case
no verifier returns `error`, so that status can only arise from an exception
escaping the routine. -/
theorem c10_exception_handling_amended (file : Except Unit (List Nat)) (ext : String)
    (env : VideoEnv) (size : Nat) (ff : FfmpegOutcome) :
    (∀ e, (check_image_corruption true (.osError e) file ext).1 = "corrupt") ∧
    (∀ e, (check_image_corruption true (.otherError e) file ext).1 = "corrupt") ∧
    (∀ e env2, VideoEnv.exc env2 = some e →
      check_video_corruption true env2 size = ("corrupt", "خطا در بررسی ویدیو: " ++ e) ∧
      check_video_corruption_02 true env2 ff = ("corrupt", "خطا در بررسی ویدیو: " ++ e)) ∧
    (check_video_corruption_02 false env .timedOut).1 = "suspicious" ∧
    (check_video_corruption_02 false env .binaryMissing).1 = "skipped" ∧
    (∀ e, check_video_corruption_02 false env (.failed e) =
      ("corrupt", "خطا در بررسی با ffmpeg: " ++ e)) ∧
    (∀ pil dec, (check_image_corruption pil dec file ext).1 ≠ "error") ∧
    (∀ b, (check_video_corruption b env size).1 ≠ "error") ∧
    (∀ b, (check_video_corruption_02 b env ff).1 ≠ "error") := by
  refine ⟨?_, fun e => rfl, ?_, rfl, rfl, fun e => rfl, ?_, ?_, ?_⟩
  · intro e
    unfold check_image_corruption
    simp only [Bool.not_true, Bool.false_eq_true, if_false]
    split_ifs <;> rfl
  · intro e env2 h
    constructor
    · unfold check_video_corruption
      rw [h]
      rfl
    · unfold check_video_corruption_02
      rw [h]
      rfl
  · intro pil dec
    rcases check_image_status_cases pil dec file ext with h | h | h <;> simp [h]
  · intro b
    rcases check_video_status_cases b env size with h | h | h | h <;> simp [h]
  · intro b
    rcases check_video_02_status_cases b env ff with h | h | h | h <;> simp [h]

/-- C10 witness: an exception in the decode path surfaces as corrupt with its
message. -/
theorem c10_exception_handling_amended_witness :
    check_video_corruption true { exc := some "boom" } 0 =
      ("corrupt", "خطا در بررسی ویدیو: " ++ "boom") := by
  have h := (c10_exception_handling_amended (.ok []) ".jpg" {} 0 .timedOut).2.2.1 "boom"
      { exc := some "boom" } rfl
  exact h.1

end DamageDetect
